import Mathlib

/-!
Verification development for the stock-news search backend.

Shallow embedding of the cache-and-sentiment pipeline: the sentiment scorer
(src/sentiment.js), the impact classifier and the GET /api/news handler
(server.js), and the persistent cache queries (src/database.js).

Modelling conventions:
* JS machine numbers that the code only ever uses for exact small arithmetic
  (timestamps in milliseconds/seconds, sentiment scores) are rationals.
* Query-string parameters arrive as strings in Express; absent parameters are
  `none`.  The express-validator chain admits (for page/limit) integer digit
  strings, so the embedding works with digit strings where the code does.
* The external npm `sentiment` library and JSON serialisation are external
  collaborators: they are abstracted as function parameters with no assumed
  properties.
* `Math.random()` is modelled as an explicit stream indexed by call order.
-/

namespace StockNews

/-- Character constant used when reasoning about cache-key segments. -/
def colonChar : Char := (':')

/-- An article in the shape produced by transformFinnhubNews / generateMockNews
(server.js): title, source, publishedAt (epoch milliseconds), description, url,
plus the annotation fields, absent until set. -/
structure Article where
  title : String
  source : String
  publishedAt : Rat
  description : String
  url : String
  sentiment : Option String
  sentimentScore : Option Rat
  impact : Option String
  deriving DecidableEq

/-- Result shape of analyzeSentiment (src/sentiment.js). -/
structure SentimentResult where
  score : Int
  comparative : Rat
  label : String
  deriving DecidableEq

/-- Label thresholding inside analyzeSentiment (src/sentiment.js lines 104-109):
comparative above 0.5 is positive, below -0.5 negative, otherwise neutral. -/
def sentimentLabelOf (comparative : Rat) : String :=
  if 1/2 < comparative then ("positive")
  else if comparative < -(1/2) then ("negative")
  else ("neutral")

/-- analyzeSentiment (src/sentiment.js lines 97-116).  The npm sentiment library
is the parameter `analyze`, returning the raw (score, comparative) pair.  The JS
guard `if (!text)` catches null/undefined (here `none`) and the empty string. -/
def analyzeSentiment (analyze : String → Int × Rat) (text : Option String) :
    SentimentResult :=
  match text with
  | none => { score := 0, comparative := 0, label := ("neutral") }
  | some s =>
    if s = "" then { score := 0, comparative := 0, label := ("neutral") }
    else
      { score := (analyze s).1, comparative := (analyze s).2,
        label := sentimentLabelOf (analyze s).2 }

/-- Text assembled by analyzeArticleSentiment (src/sentiment.js lines 123-126)
for the articles of this pipeline: the transformed articles carry title and
description, so the JS fallback chains headline-then-title and
summary-then-description reduce to those fields, and `x || ''` is the identity
on the string x ("" stays ""). -/
def articleText (a : Article) : String :=
  a.title ++ " " ++ a.description

/-- analyzeArticleSentiment (src/sentiment.js lines 123-126). -/
def analyzeArticleSentiment (analyze : String → Int × Rat) (a : Article) :
    SentimentResult :=
  analyzeSentiment analyze (some (articleText a))

/-- addSentimentToArticles (src/sentiment.js lines 133-142). -/
def addSentimentToArticles (analyze : String → Int × Rat)
    (articles : List Article) : List Article :=
  articles.map (fun a =>
    let d := analyzeArticleSentiment analyze a
    { a with sentiment := some d.label, sentimentScore := some d.comparative })

/-- calculateImpact (server.js lines 172-179).  publishedAt and now are epoch
milliseconds; `article.sentimentScore || 0` is 0 when the score is absent. -/
def calculateImpact (nowMs publishedAtMs sentimentScore : Rat) : String :=
  let hoursAgo := (nowMs - publishedAtMs) / (1000 * 60 * 60)
  let magnitude := |sentimentScore|
  if hoursAgo < 2 ∧ 3/10 < magnitude then ("high")
  else if hoursAgo < 12 ∧ 1/10 < magnitude then ("medium")
  else ("low")

/-- The impact-annotation map applied after sentiment annotation
(server.js lines 327-330). -/
def addImpact (nowMs : Rat) (a : Article) : Article :=
  { a with impact := some (calculateImpact nowMs a.publishedAt (a.sentimentScore.getD 0)) }

def mockTitleVerbs : List String :=
  ["Surges", "Drops", "Holds Steady", "Rises", "Falls"]

def mockSources : List String :=
  ["Financial Times", "Bloomberg", "Reuters", "CNBC", "Wall Street Journal"]

def mockImpacts : List String := ["high", "medium", "low"]

def mockSentiments : List String := ["positive", "negative", "neutral"]

/-- generateMockNews (server.js lines 527-542).  Math.random() is the stream
`rnd` (two draws per article, the title draw first); Date.now() is `nowMs`. -/
def generateMockNews (query : String) (nowMs : Rat) (rnd : Nat → Rat) :
    List Article :=
  (List.range 15).map (fun i =>
    { title := query ++ " " ++ mockTitleVerbs.getD (i % 5) "" ++ " " ++
        toString (⌊rnd (2 * i) * 20⌋ : Int) ++ "% on Market News",
      source := mockSources.getD (i % 5) "",
      publishedAt := nowMs - (i : Rat) * 3600000,
      description := query ++
        " experienced significant movement in today\x27s trading session following recent developments in the market.",
      url := "https://example.com/news/" ++ toString i,
      sentiment := some (mockSentiments.getD (i % 3) ""),
      sentimentScore := some ((rnd (2 * i + 1) - 1/2) * 2),
      impact := some (mockImpacts.getD (i % 3) "") })

/-- A row of the news_cache table (src/database.js lines 58-67).  Timestamps are
rationals in seconds; SQLite datetime strings compare chronologically. -/
structure CacheRow where
  query : String
  response_data : String
  sentiment : String
  cached_at : Rat
  expires_at : Rat
  deriving DecidableEq

/-- Accumulator of ORDER BY cached_at DESC LIMIT 1: keep the newest row seen,
keeping the earlier row on ties. -/
def pickNewer (best : Option CacheRow) (r : CacheRow) : Option CacheRow :=
  match best with
  | none => some r
  | some b => if b.cached_at < r.cached_at then some r else some b

/-- cacheQueries.get (src/database.js lines 145-149): SELECT ... WHERE query = ?
AND expires_at > datetime(now) ORDER BY cached_at DESC LIMIT 1. -/
def cacheGet (table : List CacheRow) (key : String) (now : Rat) : Option CacheRow :=
  (table.filter (fun r => decide (r.query = key) && decide (now < r.expires_at))).foldl
    pickNewer none

/-- cacheQueries.set (src/database.js lines 151-154): INSERT a fresh row with
expires_at = datetime(now, plus ttl seconds). -/
def cacheSet (table : List CacheRow) (key data sent : String) (now ttl : Rat) :
    List CacheRow :=
  table ++ [{ query := key, response_data := data, sentiment := sent,
              cached_at := now, expires_at := now + ttl }]

/-- cacheQueries.cleanup (src/database.js lines 156-158): DELETE FROM news_cache
WHERE expires_at < datetime(now). -/
def cacheCleanup (table : List CacheRow) (now : Rat) : List CacheRow :=
  table.filter (fun r => ! decide (r.expires_at < now))

/-- Number(s) on an all-digit string: the decimal value. -/
def strToNat (s : String) : Nat :=
  s.data.foldl (fun a c => a * 10 + (c.toNat - 48)) 0

/-- The language accepted for page/limit by the isInt validators
(server.js lines 291-292), restricted to unsigned digit strings. -/
def isIntStr (s : String) : Bool :=
  ! s.isEmpty && s.data.all (fun c => c.isDigit)

/-- Effective numeric page: query parameters arrive as strings and the
destructuring default 1 (server.js line 301) applies only when absent. -/
def pageVal (page : Option String) : Nat :=
  match page with
  | none => 1
  | some s => strToNat s

/-- Effective numeric limit, destructuring default 20 (server.js line 301). -/
def limitVal (limit : Option String) : Nat :=
  match limit with
  | none => 20
  | some s => strToNat s

/-- startIndex = (page - 1) * limit (server.js line 351): the JS operators `-`
and `*` coerce a query-string page/limit to a number. -/
def startIndex (page limit : Option String) : Nat :=
  (pageVal page - 1) * limitVal limit

/-- The JS expression `startIndex + limit` (server.js lines 352 and 361): when
the limit was provided in the query string it is still a STRING, so `+` is
string concatenation of the decimal texts, and both Array.slice and `<` then
coerce the concatenation back to a number; with the absent-parameter default 20
the `+` is numeric addition. -/
def sliceEndVal (page limit : Option String) : Nat :=
  match limit with
  | none => startIndex page limit + 20
  | some s => strToNat (toString (startIndex page limit) ++ s)

/-- Pagination metadata (server.js lines 357-362). -/
structure Pagination where
  page : Nat
  limit : Nat
  total : Nat
  hasMore : Bool
  deriving DecidableEq

/-- Body of the 200 response of GET /api/news (server.js lines 354-363). -/
structure NewsResponse where
  articles : List Article
  pagination : Pagination
  deriving DecidableEq

/-- The Paginate step (server.js lines 350-363): articles.slice(startIndex,
startIndex + limit) plus the metadata object; parseInt(page)/parseInt(limit)
on a digit string or on the numeric default are the numeric values. -/
def paginate (articles : List Article) (page limit : Option String) : NewsResponse :=
  { articles := (articles.drop (startIndex page limit)).take
      (sliceEndVal page limit - startIndex page limit),
    pagination :=
      { page := pageVal page,
        limit := limitVal limit,
        total := articles.length,
        hasMore := decide (sliceEndVal page limit < articles.length) } }

/-- Modelled from the spec (section 4.4, step Paginate): slice the sequence by
(page-1)*limit .. page*limit and report hasMore = page*limit < total.  Stated
for comparison with `paginate`, which embeds the source. -/
def paginateSpec (articles : List Article) (page limit : Nat) : NewsResponse :=
  { articles := (articles.drop ((page - 1) * limit)).take limit,
    pagination :=
      { page := page, limit := limit, total := articles.length,
        hasMore := decide (page * limit < articles.length) } }

/-- JS `x || dflt` on an optional string: undefined and the empty string are
falsy. -/
def jsOrStr (x : Option String) (dflt : String) : String :=
  match x with
  | none => dflt
  | some s => if s = "" then dflt else s

/-- The template literal of server.js line 302:
news:{searchQuery or category}:{page}:{limit}, where the page and limit
segments are the raw query strings or the rendered numeric defaults. -/
def cacheKey (slot pageSeg limitSeg : String) : String :=
  "news:" ++ slot ++ ":" ++ pageSeg ++ ":" ++ limitSeg

/-- A validated GET /api/news request: optional trimmed search query, category,
page and limit exactly as they stand in req.query. -/
structure Request where
  searchQuery : Option String
  category : Option String
  page : Option String
  limit : Option String
  deriving DecidableEq

/-- The cache key computed for a request (server.js lines 301-302). -/
def reqCacheKey (req : Request) : String :=
  cacheKey (jsOrStr req.searchQuery (req.category.getD ("general")))
    (req.page.getD ("1")) (req.limit.getD ("20"))

/-- query(query).optional().trim().isLength(min 1, max 10) (server.js 289);
`searchQuery` holds the already-trimmed value. -/
def validQuery (q : Option String) : Bool :=
  match q with
  | none => true
  | some s => decide (1 ≤ s.length) && decide (s.length ≤ 10)

/-- query(category).optional().isIn([general, forex, crypto, merger])
(server.js 290). -/
def validCategory (c : Option String) : Bool :=
  match c with
  | none => true
  | some s =>
    decide (s = ("general")) || decide (s = ("forex")) ||
      decide (s = ("crypto")) || decide (s = ("merger"))

/-- query(page).optional().isInt(min 1) (server.js 291). -/
def validPage (p : Option String) : Bool :=
  match p with
  | none => true
  | some s => isIntStr s && decide (1 ≤ strToNat s)

/-- query(limit).optional().isInt(min 1, max 50) (server.js 292). -/
def validLimit (l : Option String) : Bool :=
  match l with
  | none => true
  | some s => isIntStr s && decide (1 ≤ strToNat s) && decide (strToNat s ≤ 50)

/-- The whole validator chain of GET /api/news (server.js 289-292). -/
def requestValid (req : Request) : Bool :=
  validQuery req.searchQuery && validCategory req.category &&
    validPage req.page && validLimit req.limit

/-- The in-memory NodeCache layer, key to cached article list. -/
def memGet (m : List (String × List Article)) (k : String) : Option (List Article) :=
  (m.find? (fun p => decide (p.1 = k))).map (fun p => p.2)

/-- apiCache.set: the freshest binding shadows older ones. -/
def memSet (m : List (String × List Article)) (k : String) (v : List Article) :
    List (String × List Article) :=
  (k, v) :: m

/-- `articles[0]?.sentiment || 'neutral'` (server.js line 338). -/
def headSentiment (arts : List Article) : String :=
  match arts with
  | [] => ("neutral")
  | a :: _ =>
    match a.sentiment with
    | none => ("neutral")
    | some s => if s = "" then ("neutral") else s

/-- Shared mutable state touched by the handler: the in-memory cache and the
news_cache table. -/
structure NewsState where
  memCache : List (String × List Article)
  dbCache : List CacheRow
  deriving DecidableEq

/-- Ambient inputs of one handler run.  `analyze` is the npm sentiment library,
`parse`/`stringify` are JSON, `rnd` the Math.random stream, `nowMs` Date.now(),
`nowSec` the database clock, `fetched` the transformFinnhubNews output of the
provider call, `hasApiKey` whether a real FINNHUB_API_KEY is configured, and
`dbWriteOk` false models cacheQueries.set throwing (caught at server.js 341). -/
structure HandlerEnv where
  analyze : String → Int × Rat
  parse : String → List Article
  stringify : List Article → String
  rnd : Nat → Rat
  nowMs : Rat
  nowSec : Rat
  cacheTTL : Rat
  hasApiKey : Bool
  fetched : List Article
  dbWriteOk : Bool

/-- The GET /api/news handler body after validation (server.js lines 300-363):
in-memory cache check; database cache check with in-memory backfill; otherwise
fetch (mock generation when no API key, else provider articles annotated by
addSentimentToArticles then calculateImpact), a best-effort database cache
write whose failure is swallowed, an unconditional in-memory cache write; and
finally the Paginate step on the full sequence. -/
def getNews (env : HandlerEnv) (req : Request) (st : NewsState) :
    NewsResponse × NewsState :=
  let key := reqCacheKey req
  match memGet st.memCache key with
  | some articles => (paginate articles req.page req.limit, st)
  | none =>
    match cacheGet st.dbCache key env.nowSec with
    | some row =>
      let articles := env.parse row.response_data
      (paginate articles req.page req.limit,
       { st with memCache := memSet st.memCache key articles })
    | none =>
      let articles :=
        if env.hasApiKey then
          (addSentimentToArticles env.analyze env.fetched).map (addImpact env.nowMs)
        else
          generateMockNews (jsOrStr req.searchQuery ("Market")) env.nowMs env.rnd
      let db2 :=
        if env.dbWriteOk then
          cacheSet st.dbCache key (env.stringify articles) (headSentiment articles)
            env.nowSec env.cacheTTL
        else st.dbCache
      (paginate articles req.page req.limit,
       { memCache := memSet st.memCache key articles, dbCache := db2 })

/-- Outcome of GET /api/news as seen by the client. -/
inductive ApiOutcome where
  | ok (resp : NewsResponse) (st : NewsState)
  | badRequest
  deriving DecidableEq

/-- GET /api/news including the express-validator gate (server.js 287-298): an
invalid request is answered 400 before the handler body runs. -/
def newsEndpoint (env : HandlerEnv) (req : Request) (st : NewsState) : ApiOutcome :=
  if requestValid req then
    let r := getNews env req st
    ApiOutcome.ok r.1 r.2
  else ApiOutcome.badRequest

/-! ## Theorems -/

/-- Claim C5: the Impact Classifier always returns one of high/medium/low,
computed from hoursAgo = (now - publishedAt) in hours and the sentiment
magnitude exactly as specified, and the three cited examples (1h/0.4 high,
1h/0.05 low, 20h/0.9 low) evaluate as stated. -/
theorem calculateImpact_spec :
    (∀ nowMs pub score : Rat,
        calculateImpact nowMs pub score =
          if (nowMs - pub) / 3600000 < 2 ∧ 3/10 < |score| then ("high")
          else if (nowMs - pub) / 3600000 < 12 ∧ 1/10 < |score| then ("medium")
          else ("low")) ∧
    (∀ nowMs pub score : Rat,
        calculateImpact nowMs pub score = ("high") ∨
        calculateImpact nowMs pub score = ("medium") ∨
        calculateImpact nowMs pub score = ("low")) ∧
    calculateImpact 3600000 0 (2/5) = ("high") ∧
    calculateImpact 3600000 0 (1/20) = ("low") ∧
    calculateImpact 72000000 0 (9/10) = ("low") := by
  have hform : ∀ nowMs pub score : Rat,
      calculateImpact nowMs pub score =
        if (nowMs - pub) / 3600000 < 2 ∧ 3/10 < |score| then ("high")
        else if (nowMs - pub) / 3600000 < 12 ∧ 1/10 < |score| then ("medium")
        else ("low") := by
    intro n p s
    have h : (1000 * 60 * 60 : Rat) = 3600000 := by norm_num
    simp only [calculateImpact, h]
  refine ⟨hform, ?_, ?_, ?_, ?_⟩
  · intro n p s
    rw [hform]
    split
    · exact Or.inl rfl
    · split
      · exact Or.inr (Or.inl rfl)
      · exact Or.inr (Or.inr rfl)
  · have ha : |(2/5 : Rat)| = 2/5 := abs_of_pos (by norm_num)
    rw [hform, ha]
    norm_num
  · have ha : |(1/20 : Rat)| = 1/20 := abs_of_pos (by norm_num)
    rw [hform, ha]
    norm_num
  · have ha : |(9/10 : Rat)| = 9/10 := abs_of_pos (by norm_num)
    rw [hform, ha]
    norm_num

/-- Claim C6: the sentiment label is derived from the comparative score by
strict thresholding at plus/minus 0.5 (0.5 itself is neutral), both as the
thresholding function and through analyzeSentiment on a nonempty text, and the
cited examples 0.6, -0.6, 0.4, -0.4 and 0.5 evaluate as stated. -/
theorem sentiment_label_thresholds :
    (∀ c : Rat, sentimentLabelOf c =
        if 1/2 < c then ("positive")
        else if c < -(1/2) then ("negative")
        else ("neutral")) ∧
    (∀ analyze : String → Int × Rat, ∀ s : String, s ≠ "" →
        (analyzeSentiment analyze (some s)).label = sentimentLabelOf (analyze s).2) ∧
    sentimentLabelOf (3/5) = ("positive") ∧
    sentimentLabelOf (-(3/5)) = ("negative") ∧
    sentimentLabelOf (2/5) = ("neutral") ∧
    sentimentLabelOf (-(2/5)) = ("neutral") ∧
    sentimentLabelOf (1/2) = ("neutral") := by
  refine ⟨fun c => rfl, ?_, ?_, ?_, ?_, ?_, ?_⟩
  · intro analyze s hs
    simp [analyzeSentiment, hs]
  · norm_num [sentimentLabelOf]
  · norm_num [sentimentLabelOf]
  · norm_num [sentimentLabelOf]
  · norm_num [sentimentLabelOf]
  · norm_num [sentimentLabelOf]

/-- Closed instance of the hypothesis-bearing part of `sentiment_label_thresholds`. -/
theorem sentiment_label_thresholds_w :
    (analyzeSentiment (fun _ => (0, 3/5)) (some ("up"))).label =
      sentimentLabelOf ((fun _ => ((0 : Int), (3/5 : Rat))) ("up")).2 :=
  sentiment_label_thresholds.2.1 (fun _ => (0, 3/5)) ("up") (by decide)

/-- Claim C7: analyzeSentiment is total, its label is always one of
positive/neutral/negative, and null/undefined (none) or empty input returns
exactly score 0, comparative 0, neutral. -/
theorem analyzeSentiment_total_and_empty :
    (∀ analyze : String → Int × Rat, ∀ text : Option String,
        (analyzeSentiment analyze text).label = ("positive") ∨
        (analyzeSentiment analyze text).label = ("neutral") ∨
        (analyzeSentiment analyze text).label = ("negative")) ∧
    (∀ analyze : String → Int × Rat,
        analyzeSentiment analyze none =
          { score := 0, comparative := 0, label := ("neutral") }) ∧
    (∀ analyze : String → Int × Rat,
        analyzeSentiment analyze (some ("")) =
          { score := 0, comparative := 0, label := ("neutral") }) := by
  refine ⟨?_, fun analyze => rfl, fun analyze => rfl⟩
  intro analyze text
  match text with
  | none => exact Or.inr (Or.inl rfl)
  | some s =>
    by_cases hs : s = ""
    · subst hs
      exact Or.inr (Or.inl rfl)
    · have hl : (analyzeSentiment analyze (some s)).label =
          sentimentLabelOf (analyze s).2 := by
        simp only [analyzeSentiment, if_neg hs]
      rw [hl]
      unfold sentimentLabelOf
      split
      · exact Or.inl rfl
      · split
        · exact Or.inr (Or.inr rfl)
        · exact Or.inr (Or.inl rfl)

/-- A fixed unannotated article, used to build concrete article sequences. -/
def dummyArticle : Article :=
  { title := ("t"), source := ("s"), publishedAt := 0, description := ("d"),
    url := ("u"), sentiment := none, sentimentScore := none, impact := none }

/-- A concrete annotated sequence of length 45 for the pagination scenario. -/
def articles45 : List Article := List.replicate 45 dummyArticle

/-- Claim C1, failing input: for page=2, limit=20 over 45 articles the Paginate
step of the code returns 25 articles with hasMore = false, while the claimed
slice/metadata formula (paginateSpec) gives 20 articles with hasMore = true:
in `startIndex + limit` the query-string limit makes JS concatenate, giving
slice(20, 2020) and hasMore = 2020 < 45.  The three page examples cited by the
claim (pages 1, 3 and 4) do evaluate as the claim states. -/
theorem paginate_page2_string_concat_bug :
    ((paginate articles45 (some ("2")) (some ("20"))).articles.length = 25 ∧
     (paginate articles45 (some ("2")) (some ("20"))).pagination.hasMore = false) ∧
    ((paginateSpec articles45 2 20).articles.length = 20 ∧
     (paginateSpec articles45 2 20).pagination.hasMore = true) ∧
    (paginate articles45 (some ("2")) (some ("20"))).articles ≠
      (paginateSpec articles45 2 20).articles ∧
    ((paginate articles45 (some ("1")) (some ("20"))).articles.length = 20 ∧
     (paginate articles45 (some ("1")) (some ("20"))).pagination.hasMore = true) ∧
    ((paginate articles45 (some ("3")) (some ("20"))).articles.length = 5 ∧
     (paginate articles45 (some ("3")) (some ("20"))).pagination.hasMore = false) ∧
    ((paginate articles45 (some ("4")) (some ("20"))).articles.length = 0 ∧
     (paginate articles45 (some ("4")) (some ("20"))).pagination.hasMore = false) := by
  refine ⟨⟨by decide, by decide⟩, ⟨by decide, by decide⟩, ?_,
    ⟨by decide, by decide⟩, ⟨by decide, by decide⟩, ⟨by decide, by decide⟩⟩
  intro h
  have hl := congrArg List.length h
  rw [show (paginate articles45 (some ("2")) (some ("20"))).articles.length = 25 by decide,
    show (paginateSpec articles45 2 20).articles.length = 20 by decide] at hl
  exact absurd hl (by decide)

/-- Splitting at a character that occurs in neither left part: the decomposition
is unique. -/
lemma splitAtChar {c : Char} :
    ∀ (a1 a2 b1 b2 : List Char), c ∉ a1 → c ∉ a2 →
      a1 ++ c :: b1 = a2 ++ c :: b2 → a1 = a2 ∧ b1 = b2 := by
  intro a1
  induction a1 with
  | nil =>
    intro a2 b1 b2 h1 h2 h
    cases a2 with
    | nil => simpa using h
    | cons x xs =>
      simp only [List.nil_append, List.cons_append, List.cons.injEq] at h
      exact absurd (h.1 ▸ List.mem_cons_self x xs) h2
  | cons x xs ih =>
    intro a2 b1 b2 h1 h2 h
    cases a2 with
    | nil =>
      simp only [List.cons_append, List.nil_append, List.cons.injEq] at h
      exact absurd (h.1 ▸ List.mem_cons_self x xs) h1
    | cons y ys =>
      simp only [List.cons_append, List.cons.injEq] at h
      obtain ⟨hxy, hrest⟩ := h
      have h1x : c ∉ xs := fun hm => h1 (List.mem_cons_of_mem _ hm)
      have h2y : c ∉ ys := fun hm => h2 (List.mem_cons_of_mem _ hm)
      obtain ⟨he, hb⟩ := ih ys b1 b2 h1x h2y hrest
      exact ⟨by rw [hxy, he], hb⟩

/-- Character data of a cache key, grouped around its two rightmost colons. -/
lemma cacheKey_data (q p l : String) :
    (cacheKey q p l).data =
      (("news:").data ++ q.data) ++ colonChar :: (p.data ++ colonChar :: l.data) := by
  simp [cacheKey, String.data_append, colonChar]

/-- Reversal of a list grouped around two marker characters. -/
lemma rev_two_markers (A p l : List Char) (c : Char) :
    (A ++ c :: (p ++ c :: l)).reverse =
      l.reverse ++ c :: (p.reverse ++ c :: A.reverse) := by
  simp [List.reverse_append, List.append_assoc]

/-- Claim C2: the cache-key derivation is a pure function of the effective
parameters (search-term-or-category slot, page segment, limit segment), and it
is injective whenever the page and limit segments are colon-free (every
validated integer page/limit string and the rendered defaults are colon-free):
two keys agree exactly when all three effective parameters agree, so distinct
effective requests never collide and identical ones always do. -/
theorem cacheKey_injective_iff (q1 q2 p1 p2 l1 l2 : String)
    (hp1 : colonChar ∉ p1.data) (hp2 : colonChar ∉ p2.data)
    (hl1 : colonChar ∉ l1.data) (hl2 : colonChar ∉ l2.data) :
    cacheKey q1 p1 l1 = cacheKey q2 p2 l2 ↔ (q1 = q2 ∧ p1 = p2 ∧ l1 = l2) := by
  constructor
  · intro h
    have hd := congrArg String.data h
    rw [cacheKey_data, cacheKey_data] at hd
    have hrev := congrArg List.reverse hd
    rw [rev_two_markers, rev_two_markers] at hrev
    obtain ⟨hl, hrest⟩ := splitAtChar _ _ _ _
      (fun hm => hl1 (List.mem_reverse.mp hm))
      (fun hm => hl2 (List.mem_reverse.mp hm)) hrev
    obtain ⟨hp, hA⟩ := splitAtChar _ _ _ _
      (fun hm => hp1 (List.mem_reverse.mp hm))
      (fun hm => hp2 (List.mem_reverse.mp hm)) hrest
    have hq : q1.data = q2.data :=
      List.append_cancel_left (List.reverse_injective hA)
    exact ⟨String.ext hq,
      String.ext (List.reverse_injective hp),
      String.ext (List.reverse_injective hl)⟩
  · rintro ⟨rfl, rfl, rfl⟩
    rfl

/-- Closed instance of `cacheKey_injective_iff`: two requests differing only in
the search term derive different keys, at the concrete key segments of a
validated request. -/
theorem cacheKey_injective_iff_w :
    cacheKey ("AAPL") ("2") ("20") = cacheKey ("TSLA") ("2") ("20") ↔
      (("AAPL") = ("TSLA") ∧ ("2") = ("2") ∧ ("20") = ("20")) :=
  cacheKey_injective_iff _ _ _ _ _ _ (by decide) (by decide) (by decide) (by decide)

/-- A concrete environment: no API key configured, trivial collaborators. -/
def env0 : HandlerEnv :=
  { analyze := fun _ => (0, 0), parse := fun _ => [], stringify := fun _ => (""),
    rnd := fun _ => 0, nowMs := 0, nowSec := 0, cacheTTL := 300,
    hasApiKey := false, fetched := [], dbWriteOk := true }

/-- Empty caches. -/
def st0 : NewsState := { memCache := [], dbCache := [] }

/-- A request asking for limit=60. -/
def reqLimit60 : Request :=
  { searchQuery := some ("AAPL"), category := none, page := none,
    limit := some ("60") }

/-- A valid request relying on the page/limit defaults. -/
def reqDefault : Request :=
  { searchQuery := some ("AAPL"), category := none, page := none, limit := none }

/-- Claim C3 counterexample: the request with limit=60 is answered with a
validation error, not served; in particular it is not served using limit 50. -/
theorem limit60_rejected :
    newsEndpoint env0 reqLimit60 st0 = ApiOutcome.badRequest ∧
    ¬ ∃ resp st2, newsEndpoint env0 reqLimit60 st0 = ApiOutcome.ok resp st2 := by
  refine ⟨rfl, ?_⟩
  rintro ⟨resp, st2, h⟩
  rw [show newsEndpoint env0 reqLimit60 st0 = ApiOutcome.badRequest from rfl] at h
  exact ApiOutcome.noConfusion h

/-- Every branch of the handler paginates with the request page and limit, so
the served page-size metadata is limitVal of the request limit. -/
lemma getNews_resp_limit (env : HandlerEnv) (req : Request) (st : NewsState) :
    ((getNews env req st).1).pagination.limit = limitVal req.limit := by
  simp only [getNews]
  cases hm : memGet st.memCache (reqCacheKey req) with
  | some arts => rfl
  | none =>
    cases hd : cacheGet st.dbCache (reqCacheKey req) env.nowSec with
    | some row => rfl
    | none => rfl

/-- Claim C3 amended: a request whose limit exceeds 50 fails validation and is
rejected (it is not clamped and not served), and a request without a limit is
served with the default page size 20. -/
theorem limit_validation_spec :
    (∀ env req st s, req.limit = some s → 50 < strToNat s →
        newsEndpoint env req st = ApiOutcome.badRequest) ∧
    (∀ env req st resp st2, req.limit = none →
        newsEndpoint env req st = ApiOutcome.ok resp st2 →
        resp.pagination.limit = 20) := by
  constructor
  · intro env req st s hs h50
    have hc : decide (strToNat s ≤ 50) = false := by
      simp only [decide_eq_false_iff_not]
      omega
    have hv : validLimit req.limit = false := by
      rw [hs]
      show (isIntStr s && decide (1 ≤ strToNat s) && decide (strToNat s ≤ 50)) = false
      rw [hc, Bool.and_false]
    have hr : requestValid req = false := by
      unfold requestValid
      rw [hv, Bool.and_false]
    simp [newsEndpoint, hr]
  · intro env req st resp st2 hnone h
    by_cases hv : requestValid req
    · simp only [newsEndpoint, if_pos hv] at h
      cases h
      rw [getNews_resp_limit, hnone]
      rfl
    · simp only [newsEndpoint, if_neg hv] at h
      exact ApiOutcome.noConfusion h

/-- Closed instance of `limit_validation_spec`: limit=60 is rejected, and the
default-limit request is served with page size 20. -/
theorem limit_validation_spec_w :
    newsEndpoint env0 reqLimit60 st0 = ApiOutcome.badRequest ∧
    ((getNews env0 reqDefault st0).1).pagination.limit = 20 :=
  ⟨limit_validation_spec.1 env0 reqLimit60 st0 ("60") rfl (by decide),
   limit_validation_spec.2 env0 reqDefault st0 (getNews env0 reqDefault st0).1
     (getNews env0 reqDefault st0).2 rfl rfl⟩

/-- The text fed to the sentiment scorer for an article always contains the
joining space, so it is never the empty string. -/
lemma articleText_ne_empty (a : Article) : articleText a ≠ ("") := by
  intro h
  have hlen := congrArg String.length h
  have hsp : (" ").length = 1 := rfl
  simp [articleText, String.length_append, hsp] at hlen

/-- Unfolding of analyzeArticleSentiment on any article: the empty-input guard
never fires and the label is the thresholded comparative. -/
lemma analyzeArticleSentiment_eq (analyze : String → Int × Rat) (a : Article) :
    analyzeArticleSentiment analyze a =
      { score := (analyze (articleText a)).1,
        comparative := (analyze (articleText a)).2,
        label := sentimentLabelOf (analyze (articleText a)).2 } := by
  unfold analyzeArticleSentiment analyzeSentiment
  show (if articleText a = ("") then
        ({ score := 0, comparative := 0, label := ("neutral") } : SentimentResult)
      else
        { score := (analyze (articleText a)).1,
          comparative := (analyze (articleText a)).2,
          label := sentimentLabelOf (analyze (articleText a)).2 }) =
    { score := (analyze (articleText a)).1,
      comparative := (analyze (articleText a)).2,
      label := sentimentLabelOf (analyze (articleText a)).2 }
  rw [if_neg (articleText_ne_empty a)]

/-- The sentiment-annotation step always stores, in each output article, the
comparative it computed and the label obtained by thresholding that same
comparative. -/
lemma addSentiment_head_consistent (analyze : String → Int × Rat)
    (xs : List Article) (a : Article)
    (h : (addSentimentToArticles analyze xs).head? = some a) :
    ∃ b : Article,
      a.sentiment = some (sentimentLabelOf (analyze (articleText b)).2) ∧
      a.sentimentScore = some ((analyze (articleText b)).2) := by
  unfold addSentimentToArticles at h
  rw [List.head?_map] at h
  cases hx : xs.head? with
  | none => rw [hx] at h; exact absurd h (by simp)
  | some b =>
    rw [hx] at h
    have hfb := Option.some.inj h
    refine ⟨b, ?_, ?_⟩
    · rw [← hfb]
      simp [analyzeArticleSentiment_eq]
    · rw [← hfb]
      simp [analyzeArticleSentiment_eq]

/-- Claim C4 counterexample: with no provider credential and cold caches, the
served articles are the raw generateMockNews output, and no run of the Annotate
sentiment step (addSentimentToArticles, under any behaviour of the sentiment
library) can produce that sequence: mock article 0 carries the rotated label
positive together with the random score (0 - 1/2) * 2 = -1, while every
annotated article carries exactly the label thresholded from its own stored
comparative, and the threshold maps -1 to negative. -/
theorem mock_articles_skip_annotate :
    ¬ ∃ (analyze : String → Int × Rat) (xs : List Article),
        (getNews env0 reqDefault st0).1.articles =
          addSentimentToArticles analyze xs := by
  rintro ⟨analyze, xs, heq⟩
  have h0 : ∃ a : Article,
      (addSentimentToArticles analyze xs).head? = some a ∧
      a.sentiment = some ("positive") ∧
      a.sentimentScore = some (((0 : Rat) - 1/2) * 2) := by
    rw [← heq]
    exact ⟨_, rfl, rfl, rfl⟩
  obtain ⟨a, ha, hs1, hs2⟩ := h0
  obtain ⟨b, hb1, hb2⟩ := addSentiment_head_consistent analyze xs a ha
  have hv : (analyze (articleText b)).2 = -1 := by
    have := hs2.symm.trans hb2
    rw [Option.some.injEq] at this
    rw [← this]
    norm_num
  have hlab : ("positive") = sentimentLabelOf (-1) := by
    have := hs1.symm.trans hb1
    rw [Option.some.injEq] at this
    rw [← hv]
    exact this
  rw [show sentimentLabelOf (-1) = ("negative") by norm_num [sentimentLabelOf]] at hlab
  exact absurd hlab (by decide)

/-- Claim C4 amended: when no provider credential is configured and both cache
layers miss, the pipeline serves the generateMockNews output: the mock articles
skip the Annotate step (their sentiment and impact fields are baked in at
generation, see `mock_articles_skip_annotate`), but they do pass unchanged
through the same Persist step (best-effort database write via cacheSet plus the
in-memory write) and the same Paginate step as provider-fetched articles. -/
theorem mock_pipeline_persist_paginate (env : HandlerEnv) (req : Request)
    (st : NewsState)
    (hkey : env.hasApiKey = false)
    (hmem : memGet st.memCache (reqCacheKey req) = none)
    (hdb : cacheGet st.dbCache (reqCacheKey req) env.nowSec = none)
    (hw : env.dbWriteOk = true) :
    getNews env req st =
      (paginate (generateMockNews (jsOrStr req.searchQuery ("Market"))
          env.nowMs env.rnd) req.page req.limit,
       { memCache := memSet st.memCache (reqCacheKey req)
           (generateMockNews (jsOrStr req.searchQuery ("Market")) env.nowMs env.rnd),
         dbCache := cacheSet st.dbCache (reqCacheKey req)
           (env.stringify (generateMockNews (jsOrStr req.searchQuery ("Market"))
             env.nowMs env.rnd))
           (headSentiment (generateMockNews (jsOrStr req.searchQuery ("Market"))
             env.nowMs env.rnd))
           env.nowSec env.cacheTTL }) := by
  simp only [getNews, hmem, hdb, hkey, hw, if_true, if_false, Bool.false_eq_true]

/-- Closed instance of `mock_pipeline_persist_paginate` at the concrete
no-credential environment with empty caches. -/
theorem mock_pipeline_persist_paginate_w :
    getNews env0 reqDefault st0 =
      (paginate (generateMockNews (jsOrStr reqDefault.searchQuery ("Market"))
          env0.nowMs env0.rnd) reqDefault.page reqDefault.limit,
       { memCache := memSet st0.memCache (reqCacheKey reqDefault)
           (generateMockNews (jsOrStr reqDefault.searchQuery ("Market"))
             env0.nowMs env0.rnd),
         dbCache := cacheSet st0.dbCache (reqCacheKey reqDefault)
           (env0.stringify (generateMockNews (jsOrStr reqDefault.searchQuery ("Market"))
             env0.nowMs env0.rnd))
           (headSentiment (generateMockNews (jsOrStr reqDefault.searchQuery ("Market"))
             env0.nowMs env0.rnd))
           env0.nowSec env0.cacheTTL }) :=
  mock_pipeline_persist_paginate env0 reqDefault st0 rfl rfl rfl rfl

/-- An in-memory write is immediately visible at its key. -/
lemma memGet_memSet (m : List (String × List Article)) (k : String)
    (v : List Article) : memGet (memSet m k v) k = some v := by
  unfold memGet memSet
  rw [List.find?_cons_of_pos _ (by simp)]
  rfl

/-- Claim C9: a failing persistent cache write is swallowed: the served response
and the in-memory cache state are identical whether the database write succeeds
or fails, and after every request the in-memory cache holds, at the request
key, the full sequence whose paginated slice was served. -/
theorem db_write_failure_invisible :
    (∀ (env : HandlerEnv) (req : Request) (st : NewsState),
        (getNews { env with dbWriteOk := false } req st).1 =
          (getNews { env with dbWriteOk := true } req st).1) ∧
    (∀ (env : HandlerEnv) (req : Request) (st : NewsState),
        (getNews { env with dbWriteOk := false } req st).2.memCache =
          (getNews { env with dbWriteOk := true } req st).2.memCache) ∧
    (∀ (env : HandlerEnv) (req : Request) (st : NewsState), ∃ arts,
        memGet ((getNews env req st).2.memCache) (reqCacheKey req) = some arts ∧
        (getNews env req st).1 = paginate arts req.page req.limit) := by
  refine ⟨?_, ?_, ?_⟩
  · intro env req st
    obtain ⟨an, pa, sf, rn, nm, ns, tt, hk, fe, dw⟩ := env
    simp only [getNews]
    cases hm : memGet st.memCache (reqCacheKey req) with
    | some arts => rfl
    | none =>
      cases hd : cacheGet st.dbCache (reqCacheKey req) ns with
      | some row => rfl
      | none => rfl
  · intro env req st
    obtain ⟨an, pa, sf, rn, nm, ns, tt, hk, fe, dw⟩ := env
    simp only [getNews]
    cases hm : memGet st.memCache (reqCacheKey req) with
    | some arts => rfl
    | none =>
      cases hd : cacheGet st.dbCache (reqCacheKey req) ns with
      | some row => rfl
      | none => rfl
  · intro env req st
    simp only [getNews]
    cases hm : memGet st.memCache (reqCacheKey req) with
    | some arts => exact ⟨arts, hm, rfl⟩
    | none =>
      cases hd : cacheGet st.dbCache (reqCacheKey req) env.nowSec with
      | some row => exact ⟨env.parse row.response_data, memGet_memSet _ _ _, rfl⟩
      | none =>
        refine ⟨_, memGet_memSet _ _ _, rfl⟩

/-- The accumulator fold behind ORDER BY cached_at DESC LIMIT 1 only ever
returns a row of the list or the initial accumulator. -/
lemma foldl_pickNewer_some :
    ∀ (l : List CacheRow) (acc : Option CacheRow) (r : CacheRow),
      l.foldl pickNewer acc = some r → r ∈ l ∨ acc = some r := by
  intro l
  induction l with
  | nil => intro acc r h; exact Or.inr h
  | cons x xs ih =>
    intro acc r h
    rcases ih (pickNewer acc x) r h with h1 | h1
    · exact Or.inl (List.mem_cons_of_mem _ h1)
    · cases acc with
      | none =>
        left
        rw [← Option.some.inj h1]
        exact List.mem_cons_self x xs
      | some b =>
        have h2 : (if b.cached_at < x.cached_at then some x else some b) = some r := h1
        by_cases hb : b.cached_at < x.cached_at
        · rw [if_pos hb] at h2
          left
          rw [← Option.some.inj h2]
          exact List.mem_cons_self x xs
        · rw [if_neg hb] at h2
          exact Or.inr h2

/-- Any row returned by the persistent lookup belongs to the table, matches the
requested key, and is strictly unexpired at the time of the check. -/
lemma cacheGet_spec (table : List CacheRow) (key : String) (now : Rat)
    (r : CacheRow) (h : cacheGet table key now = some r) :
    r ∈ table ∧ r.query = key ∧ now < r.expires_at := by
  unfold cacheGet at h
  rcases foldl_pickNewer_some _ _ _ h with h1 | h1
  · rw [List.mem_filter] at h1
    have h2 := h1.2
    simp only [Bool.and_eq_true, decide_eq_true_eq] at h2
    exact ⟨h1.1, h2.1, h2.2⟩
  · exact absurd h1 (by simp)

/-- A store whose entry is already expired at lookup time does not change what
the lookup returns. -/
lemma cacheGet_set_expired (table : List CacheRow) (key data sent : String)
    (wt ttl : Rat) (lookupKey : String) (lt : Rat) (hexp : ¬ lt < wt + ttl) :
    cacheGet (cacheSet table key data sent wt ttl) lookupKey lt =
      cacheGet table lookupKey lt := by
  unfold cacheGet cacheSet
  rw [List.filter_append]
  have hnil : List.filter
      (fun r : CacheRow => decide (r.query = lookupKey) && decide (lt < r.expires_at))
      [{ query := key, response_data := data, sentiment := sent,
         cached_at := wt, expires_at := wt + ttl }] = [] := by
    simp [hexp]
  rw [hnil, List.append_nil]

/-- Claim C8: every payload returned by the persistent-layer lookup was strictly
non-expired at the moment of the check and belongs to the requested key, and an
entry stored with ttl = 0 is never the row returned by any lookup performed at
or after its write time: such a lookup can only return pre-existing rows. -/
theorem lookup_only_live_rows :
    (∀ table key now r, cacheGet table key now = some r →
        r.query = key ∧ now < r.expires_at) ∧
    (∀ table key data sent wt lt r, wt ≤ lt →
        cacheGet (cacheSet table key data sent wt 0) key lt = some r →
        r ∈ table) := by
  constructor
  · intro table key now r h
    exact (cacheGet_spec table key now r h).2
  · intro table key data sent wt lt r hle h
    rw [cacheGet_set_expired table key data sent wt 0 key lt
      (by rw [add_zero]; exact not_lt.mpr hle)] at h
    exact (cacheGet_spec table key lt r h).1

/-- A concrete live cache row. -/
def rowA : CacheRow :=
  { query := ("news:AAPL:1:20"), response_data := ("[]"),
    sentiment := ("neutral"), cached_at := 1, expires_at := 100 }

/-- Closed instance of `lookup_only_live_rows`: the lookup at time 5 over the
table holding `rowA` returns a live row, and after an additional ttl=0 store at
time 5 the lookup at time 5 still only returns the pre-existing row. -/
theorem lookup_only_live_rows_w :
    (rowA.query = ("news:AAPL:1:20") ∧ (5 : Rat) < rowA.expires_at) ∧
    rowA ∈ [rowA] :=
  ⟨lookup_only_live_rows.1 [rowA] ("news:AAPL:1:20") 5 rowA
      (by norm_num [cacheGet, rowA, pickNewer]),
   lookup_only_live_rows.2 [rowA] ("news:AAPL:1:20") ("x") ("neutral") 5 5 rowA
      (le_refl 5)
      (by rw [cacheGet_set_expired _ _ _ _ _ _ _ _ (by norm_num)]
          norm_num [cacheGet, rowA, pickNewer])⟩

/-- Claim C10: the persistent cache store is insert-only: it appends exactly one
new row and preserves every existing row (so several rows for one key coexist);
a store strictly newer than every existing row is the row that a lookup with a
live deadline returns, superseding older rows without removing them; and the
cleanup sweep retains exactly the rows that are not expired. -/
theorem cache_store_insert_only :
    (∀ table key data sent now ttl,
        (∀ r ∈ table, r ∈ cacheSet table key data sent now ttl) ∧
        (cacheSet table key data sent now ttl).length = table.length + 1) ∧
    (∀ table key data sent now ttl lt, lt < now + ttl →
        (∀ r ∈ table, r.cached_at < now) →
        cacheGet (cacheSet table key data sent now ttl) key lt =
          some { query := key, response_data := data, sentiment := sent,
                 cached_at := now, expires_at := now + ttl }) ∧
    (∀ table now r, r ∈ cacheCleanup table now ↔
        (r ∈ table ∧ ¬ r.expires_at < now)) := by
  refine ⟨?_, ?_, ?_⟩
  · intro table key data sent now ttl
    exact ⟨fun r hr => List.mem_append_left _ hr, by simp [cacheSet]⟩
  · intro table key data sent now ttl lt hfresh hnewer
    unfold cacheGet cacheSet
    rw [List.filter_append]
    have hone : List.filter
        (fun r : CacheRow => decide (r.query = key) && decide (lt < r.expires_at))
        [{ query := key, response_data := data, sentiment := sent,
           cached_at := now, expires_at := now + ttl }] =
        [{ query := key, response_data := data, sentiment := sent,
           cached_at := now, expires_at := now + ttl }] := by
      simp [hfresh]
    rw [hone, List.foldl_append]
    cases hacc : (table.filter
        (fun r : CacheRow => decide (r.query = key) && decide (lt < r.expires_at))).foldl
        pickNewer none with
    | none => rfl
    | some b =>
      have hbmem : b ∈ table := by
        rcases foldl_pickNewer_some _ _ _ hacc with h1 | h1
        · exact (List.mem_filter.mp h1).1
        · exact absurd h1 (by simp)
      have hblt : b.cached_at < now := hnewer b hbmem
      have hstep : ∀ x : CacheRow, b.cached_at < x.cached_at →
          pickNewer (some b) x = some x := by
        intro x hx
        have hpn : pickNewer (some b) x =
            if b.cached_at < x.cached_at then some x else some b := rfl
        rw [hpn, if_pos hx]
      exact hstep _ hblt
  · intro table now r
    simp [cacheCleanup, List.mem_filter]

/-- Closed instance of the hypothesis-bearing parts of
`cache_store_insert_only` at the table holding `rowA`. -/
theorem cache_store_insert_only_w :
    cacheGet (cacheSet [rowA] ("news:AAPL:1:20") ("[]") ("neutral") 10 300)
        ("news:AAPL:1:20") 20 =
      some { query := ("news:AAPL:1:20"), response_data := ("[]"),
             sentiment := ("neutral"), cached_at := 10, expires_at := 10 + 300 } :=
  cache_store_insert_only.2.1 [rowA] ("news:AAPL:1:20") ("[]") ("neutral")
    10 300 20 (by norm_num) (by norm_num [rowA])

end StockNews
